import Mathlib

/-
Verification of the Serial Receiver layer of CRSFforArduino
(src/src/SerialReceiver/SerialReceiver.cpp) against its design
specification.

The source performs its unit conversions in IEEE-754 binary32 ("float")
arithmetic.  Those conversions are embedded here exactly: a nonnegative
binary32 value is represented as a dyadic rational n / 2^d, and each
float operation (multiply, add, divide) is the exact rational operation
followed by correct rounding to a 24-bit significand with round-to-
nearest, ties-to-even, which is IEEE-754 round-to-nearest semantics for
the value ranges the program produces (all values are normal, positive
and far from overflow/underflow).
-/

namespace SerialReceiver

/-- Bit length of a natural number, by binary search with explicit fuel
so that it reduces by kernel computation: with fuel f it is exact for
every n below 2 ^ 2 ^ f. -/
def nbitsAux : ℕ → ℕ → ℕ
  | 0, n => if n = 0 then 0 else 1
  | f + 1, n => if n < 2 ^ 2 ^ f then nbitsAux f n else nbitsAux f (n / 2 ^ 2 ^ f) + 2 ^ f

/-- Bit length of a natural number below 2^128, ample for every number
built from 16-bit inputs and the shifts used here. -/
def nbits (n : ℕ) : ℕ := nbitsAux 7 n

/-- Round n / 2^s to the nearest integer, ties to even. -/
def rne (n s : ℕ) : ℕ :=
  if s = 0 then n
  else
    let q := n / 2 ^ s
    let r := n % 2 ^ s
    let half := 2 ^ (s - 1)
    if half < r then q + 1
    else if r < half then q
    else if q % 2 = 0 then q else q + 1

/-- A nonnegative dyadic rational n / 2^d, the exact value of a
nonnegative binary32 number. -/
structure Dyadic where
  n : ℕ
  d : ℕ
deriving DecidableEq

/-- Round a dyadic rational to a 24-bit significand (round to nearest,
ties to even): the result of an exact float product or sum is rounded
this way by the hardware. -/
def Dyadic.round24 (x : Dyadic) : Dyadic :=
  let b := nbits x.n
  if b ≤ 24 then x
  else { n := rne x.n (b - 24), d := x.d - (b - 24) }

/-- Binary32 multiplication of a small natural number (an exact float,
here a channel value below 2^16) by a float: the exact product rounded
to 24 significant bits. -/
def Dyadic.mulNat (x : Dyadic) (v : ℕ) : Dyadic :=
  Dyadic.round24 { n := v * x.n, d := x.d }

/-- Binary32 addition of a small natural number (an exact float, here
the constant 881) to a float: the exact sum rounded to 24 significant
bits. -/
def Dyadic.addNat (x : Dyadic) (v : ℕ) : Dyadic :=
  Dyadic.round24 { n := x.n + v * 2 ^ x.d, d := x.d }

/-- Truncation toward zero of a nonnegative float to an integer: the
effect of the C cast (uint16_t) on the in-range values the program
produces. -/
def Dyadic.truncNat (x : Dyadic) : ℕ := x.n / 2 ^ x.d

/-- Round the positive rational num / den to a binary32 value (24-bit
significand, round to nearest, ties to even).  The quotient is computed
to 80 guard bits; the remainder acts as the sticky bit deciding ties.
Used both for the float literal 0.62477120195241F (rounding the decimal
to binary32, as the compiler does) and for correctly rounded binary32
division. -/
def ratRound24 (num den : ℕ) : Dyadic :=
  let q0 := num * 2 ^ 80 / den
  let r0 := num * 2 ^ 80 % den
  let t := nbits q0
  let s := t - 24
  let q := q0 / 2 ^ s
  let r := q0 % 2 ^ s
  let half := 2 ^ (s - 1)
  let m := if half < r then q + 1
           else if r < half then q
           else if 0 < r0 then q + 1
           else if q % 2 = 0 then q else q + 1
  { n := m, d := 80 - s }

/-- Binary32 division of a small natural number (an exact float) by a
float: the exact quotient correctly rounded, as IEEE-754 requires. -/
def divF32 (a : ℕ) (b : Dyadic) : Dyadic :=
  ratRound24 (a * 2 ^ b.d) b.n

/-- The float literal 0.62477120195241F from SerialReceiver.cpp (the
scale factor (2012 - 988) / (1811 - 172)), rounded by the compiler to
binary32; its exact value is 10481921 / 2^24. -/
def scaleF32 : Dyadic := ratRound24 62477120195241 (10 ^ 14)

/-- rcToUs from SerialReceiver.cpp line 334: converts a protocol-native
channel value to microseconds, computing
(uint16_t)((rc * 0.62477120195241F) + 881) in binary32 arithmetic.
(readRcChannel with raw = false, line 320, inlines this same
expression.)  The model covers the nonnegative in-range values the
program produces, where the uint16_t cast is plain truncation. -/
def rcToUs (rc : ℕ) : ℕ :=
  Dyadic.truncNat (Dyadic.addNat (Dyadic.mulNat scaleF32 rc) 881)

/-- usToRc from SerialReceiver.cpp line 339: converts microseconds back
to a protocol-native value, computing
(uint16_t)((us - 881) / 0.62477120195241F) in binary32 arithmetic.  The
model covers us ≥ 881 (for smaller inputs the source casts a negative
float to uint16_t, which C leaves undefined); every value reachable from
rcToUs on the protocol range satisfies this. -/
def usToRc (us : ℕ) : ℕ :=
  Dyadic.truncNat (divF32 (us - 881) scaleF32)

/-- The round-trip error check used to decide the unit-conversion claim:
true when usToRc (rcToUs v) is within tol of v. -/
def roundTripWithin (tol v : ℕ) : Bool :=
  decide (((usToRc (rcToUs v) : ℤ) - (v : ℤ)).natAbs ≤ tol)

/-- Exhaustive check of the round trip over the whole protocol range
[172, 1811] with tolerance 2. -/
def roundTripAll2 : Bool :=
  (List.range 1640).all (fun i => roundTripWithin 2 (172 + i))

/-- rcChannels_t: the controller-owned channel snapshot (a valid flag, a
failsafe flag and the 16 stored uint16 channel values, kept as a list of
naturals). -/
structure rcChannels_t where
  valid : Bool
  failsafe : Bool
  value : List ℕ
deriving DecidableEq

/-- flightMode_t: one entry of the flight-mode table; the assigned
channel index and the inclusive range of channel values selecting this
mode. -/
structure flightMode_t where
  channel : ℕ
  min : ℕ
  max : ℕ
deriving DecidableEq

/-- The channel snapshot as both constructors build it
(SerialReceiver.cpp lines 51-54 and 66-69): valid and failsafe cleared,
all sixteen channel values zeroed by memset. -/
def rcChannelsInit : rcChannels_t :=
  { valid := false, failsafe := false, value := List.replicate 16 0 }

/-- readRcChannel from SerialReceiver.cpp lines 303-327.  For a channel
index at most 15 it returns the stored value (raw) or that value pushed
through the same binary32 expression as rcToUs (lines 313-320 inline the
identical formula); for any larger index it returns 0.  The source
method contains no assignment, so it is embedded as a pure function of
the snapshot. -/
def readRcChannel (rc : rcChannels_t) (channel : ℕ) (raw : Bool) : ℕ :=
  if channel ≤ 15 then
    if raw then rc.value.getD channel 0
    else rcToUs (rc.value.getD channel 0)
  else 0

/-- getChannel from SerialReceiver.cpp line 329: readRcChannel with
raw = true. -/
def getChannel (rc : rcChannels_t) (channel : ℕ) : ℕ :=
  readRcChannel rc channel true

/-- setFlightMode from SerialReceiver.cpp lines 345-358.  The table is
the list of entries, whose length is the compile-time FLIGHT_MODE_COUNT
the id is validated against; a valid call stores the entry at index id
and returns true, an invalid one returns false with the table
untouched. -/
def setFlightMode (modes : List flightMode_t) (flightMode channel mn mx : ℕ) :
    List flightMode_t × Bool :=
  if flightMode < modes.length ∧ channel ≤ 15 then
    (modes.set flightMode { channel := channel, min := mn, max := mx }, true)
  else
    (modes, false)

/-- Modelled from the spec: the header (not under src/) declares
_rcChannels as a pointer to the single heap-allocated rcChannels_t
snapshot.  In handleFlightMode (SerialReceiver.cpp line 371) the scanned
quantity is written _rcChannels[_flightModes[i].channel] — indexing that
struct pointer, not its value array — which the spec's design notes
identify as a latent indexing defect: for a channel index c the read
denotes heap contents c struct-widths past the snapshot, not the stored
channel value.  That read is modelled as an arbitrary environment
function heapAt of the index, independent of the snapshot's values. -/
def handleFlightModeGo (heapAt : ℕ → ℕ) : List flightMode_t → ℕ → Option ℕ
  | [], _ => none
  | m :: rest, i =>
      if m.min ≤ heapAt m.channel ∧ heapAt m.channel ≤ m.max then some i
      else handleFlightModeGo heapAt rest (i + 1)

/-- handleFlightMode from SerialReceiver.cpp lines 365-378, as the code
is written (see handleFlightModeGo for the modelling of the defective
read): scans the table in index order and yields the index delivered to
the registered flight-mode callback, or none when no entry matches (the
guard for an unregistered callback is the some/none of the caller and
does not change which index is computed). -/
def handleFlightMode (heapAt : ℕ → ℕ) (modes : List flightMode_t) : Option ℕ :=
  handleFlightModeGo heapAt modes 0

/-- The scan §4.3 of the spec describes, for comparison with the code:
identical to handleFlightMode except that the scanned quantity is the
designated channel's current stored value in the snapshot. -/
def handleFlightModeSpecGo (rc : rcChannels_t) : List flightMode_t → ℕ → Option ℕ
  | [], _ => none
  | m :: rest, i =>
      if m.min ≤ rc.value.getD m.channel 0 ∧ rc.value.getD m.channel 0 ≤ m.max then some i
      else handleFlightModeSpecGo rc rest (i + 1)

/-- The flight-mode evaluation the spec describes (first stored channel
value falling in an entry's inclusive range wins). -/
def handleFlightModeSpec (rc : rcChannels_t) (modes : List flightMode_t) : Option ℕ :=
  handleFlightModeSpecGo rc modes 0

/-- Modelled from the spec: the flightModeId_t enumerators live in the
missing header; only their distinctness matters here, so they are given
consecutive codes. -/
def FLIGHT_MODE_DISARMED : ℕ := 0

/-- Modelled from the spec: the failsafe flight-mode identifier. -/
def FLIGHT_MODE_FAILSAFE : ℕ := 1

/-- Modelled from the spec: the GPS-rescue flight-mode identifier. -/
def FLIGHT_MODE_GPS_RESCUE : ℕ := 2

/-- Modelled from the spec: the passthrough flight-mode identifier. -/
def FLIGHT_MODE_PASSTHROUGH : ℕ := 3

/-- Modelled from the spec: the angle flight-mode identifier. -/
def FLIGHT_MODE_ANGLE : ℕ := 4

/-- Modelled from the spec: the horizon flight-mode identifier. -/
def FLIGHT_MODE_HORIZON : ℕ := 5

/-- Modelled from the spec: the airmode flight-mode identifier. -/
def FLIGHT_MODE_AIRMODE : ℕ := 6

/-- The switch of telemetryWriteFlightMode (SerialReceiver.cpp lines
407-430) mapping a flight-mode identifier to its short display
string. -/
def flightModeDisplay (id : ℕ) : String :=
  if id = FLIGHT_MODE_FAILSAFE then "!FS!"
  else if id = FLIGHT_MODE_GPS_RESCUE then "RTH"
  else if id = FLIGHT_MODE_PASSTHROUGH then "MANU"
  else if id = FLIGHT_MODE_ANGLE then "STAB"
  else if id = FLIGHT_MODE_HORIZON then "HOR"
  else if id = FLIGHT_MODE_AIRMODE then "AIR"
  else "ACRO"

/-- telemetryWriteFlightMode from SerialReceiver.cpp lines 405-434: the
pair (display string, armed flag) the controller forwards to
telemetry->setFlightModeData.  Line 433 computes the second argument as
(bool)(flightModeId == FLIGHT_MODE_DISARMED ? true : false).  That slot
is the armed flag: telemetryWriteCustomFlightMode (line 438) passes its
parameter named armed in the same position. -/
def telemetryWriteFlightMode (id : ℕ) : String × Bool :=
  (flightModeDisplay id, if id = FLIGHT_MODE_DISARMED then true else false)

/-- One engine pointer of the controller (crsf or telemetry): whether
the pointer is null, and whether the allocation it designates is still
live. -/
structure EnginePtr where
  isNull : Bool
  live : Bool
deriving DecidableEq

/-- Modelled from the spec: the header initialises the engine pointers
to null, so that tearing down a never-constructed engine is skipped by
the null guard. -/
def nullEngine : EnginePtr := { isNull := true, live := false }

/-- The lifecycle state the teardown claim is about: the two engine
pointers and whether a teardown or delete has ever been applied to an
already-freed engine (a double free). -/
structure LifecycleState where
  crsf : EnginePtr
  telemetry : EnginePtr
  doubleFree : Bool
deriving DecidableEq

/-- The lifecycle state at construction: both engine pointers null. -/
def initialLifecycle : LifecycleState :=
  { crsf := nullEngine, telemetry := nullEngine, doubleFree := false }

/-- The engine allocations of begin() (SerialReceiver.cpp lines 156 and
176, on the success path): both pointers now non-null and live. -/
def beginEngines (s : LifecycleState) : LifecycleState :=
  { s with crsf := { isNull := false, live := true },
           telemetry := { isNull := false, live := true } }

/-- The engine-teardown portion of end() (SerialReceiver.cpp lines
221-235): each non-null engine pointer gets end() called and delete
applied — marking a double free when the allocation is no longer live —
and, exactly as in the source, the pointer is left non-null afterwards
(no assignment of nullptr follows either delete). -/
def endOp (s : LifecycleState) : LifecycleState :=
  let s1 := if s.crsf.isNull then s
            else { s with crsf := { isNull := s.crsf.isNull, live := false },
                          doubleFree := s.doubleFree || !s.crsf.live }
  if s1.telemetry.isNull then s1
  else { s1 with telemetry := { isNull := s1.telemetry.isNull, live := false },
                 doubleFree := s1.doubleFree || !s1.telemetry.live }

/-- What one call to processFrames did: the final decode-engine state,
the updated channel snapshot, which bytes were fed to the decode engine
(in order), which buffered bytes flushRemainingFrames discarded, how
many frames the engine completed, and how many times each callback was
invoked. -/
structure ProcessResult where
  crsfState : ℕ
  rcChannels : rcChannels_t
  fed : List ℕ
  discarded : List ℕ
  frames : ℕ
  lsCalls : ℕ
  rcCalls : ℕ
deriving DecidableEq

/-- The byte-drain loop of processFrames (SerialReceiver.cpp lines
242-265).  The decode engine is abstract: its state is a natural number
and step embeds crsf->receiveFrames, returning the new state and
whether a frame completed.  The transport buffer is the list of bytes
available at the call (reads arriving later are outside the model), so
available() > 0 is the buffer being nonempty and _uart->read() takes its
head.  When a frame completes, flushRemainingFrames (lines 287-295)
discards every byte still buffered, after which the while guard finds
the buffer empty and the loop exits; the link-statistics callback, when
enabled and registered, fires once for the completed frame.  The
telemetry branch (lines 257-263) only writes outbound bytes and touches
none of the modelled outputs, so it is not represented.  Returns (final
engine state, fed bytes, discarded bytes, completed frames,
link-statistics callback invocations). -/
def processLoop (step : ℕ → ℕ → ℕ × Bool) (lsEnabled lsCb : Bool) :
    ℕ → List ℕ → ℕ × List ℕ × List ℕ × ℕ × ℕ
  | st, [] => (st, [], [], 0, 0)
  | st, b :: rest =>
      let s' := step st b
      if s'.2 then
        (s'.1, [b], rest, 1, if lsEnabled && lsCb then 1 else 0)
      else
        let r := processLoop step lsEnabled lsCb s'.1 rest
        (r.1, b :: r.2.1, r.2.2.1, r.2.2.2.1, r.2.2.2.2)

/-- processFrames from SerialReceiver.cpp lines 240-276: run the
byte-drain loop, then — when RC reporting is enabled — pull the current
failsafe flag (crsf->getFailSafe) and channel array (crsf->getRcChannels)
from the decode engine into the snapshot and, if an RC-channels callback
is registered, invoke it once.  getFs and getRc embed the engine's two
accessors as functions of its state; rcEnabled and the two callback
flags stand for the CRSF_RC_ENABLED / CRSF_LINK_STATISTICS_ENABLED
build toggles and the null checks of the registered callbacks. -/
def processFrames (step : ℕ → ℕ → ℕ × Bool) (getFs : ℕ → Bool) (getRc : ℕ → List ℕ)
    (lsEnabled lsCb rcEnabled rcCb : Bool)
    (crsfState : ℕ) (rc : rcChannels_t) (buf : List ℕ) : ProcessResult :=
  let r := processLoop step lsEnabled lsCb crsfState buf
  if rcEnabled then
    { crsfState := r.1,
      rcChannels := { rc with failsafe := getFs r.1, value := getRc r.1 },
      fed := r.2.1, discarded := r.2.2.1, frames := r.2.2.2.1, lsCalls := r.2.2.2.2,
      rcCalls := if rcCb then 1 else 0 }
  else
    { crsfState := r.1, rcChannels := rc,
      fed := r.2.1, discarded := r.2.2.1, frames := r.2.2.2.1, lsCalls := r.2.2.2.2,
      rcCalls := 0 }

/-- The decode-engine state after feeding a byte sequence
(crsf->receiveFrames applied in order), used to say at which buffer
position a frame completes. -/
def feedSeq (step : ℕ → ℕ → ℕ × Bool) : ℕ → List ℕ → ℕ
  | st, [] => st
  | st, b :: rest => feedSeq step (step st b).1 rest

/-- The decode engine completes a frame at position i of the buffer:
i is in range and, after feeding the first i bytes, feeding byte i
reports a completed frame. -/
def completesAt (step : ℕ → ℕ → ℕ × Bool) (st0 : ℕ) (buf : List ℕ) (i : ℕ) : Prop :=
  i < buf.length ∧ (step (feedSeq step st0 (buf.take i)) (buf.getD i 0)).2 = true

/-- completesAt is decidable, so concrete instances can be checked by
evaluation. -/
instance (step : ℕ → ℕ → ℕ × Bool) (st0 : ℕ) (buf : List ℕ) (i : ℕ) :
    Decidable (completesAt step st0 buf i) :=
  inferInstanceAs (Decidable (_ ∧ _))

/-! ## Theorems -/

set_option maxRecDepth 4000000 in
set_option maxHeartbeats 4000000 in
/-- Helper: the exhaustive tolerance-2 round-trip check evaluates to
true, by kernel computation over all 1640 protocol values. -/
theorem roundTripAll2_eq_true : roundTripAll2 = true := by rfl

set_option maxRecDepth 100000 in
/-- C1 counterexample: the claim |usToRc (rcToUs v) - v| ≤ 1 fails at
the protocol value v = 174, where rcToUs gives 989 and usToRc takes 989
back to 172, an error of 2. -/
theorem c1_roundTrip_counterexample :
    172 ≤ 174 ∧ 174 ≤ 1811 ∧ rcToUs 174 = 989 ∧ usToRc 989 = 172 ∧
      ¬ ((usToRc (rcToUs 174) : ℤ) - 174).natAbs ≤ 1 := by
  decide

/-- C1 (amended): for every protocol value v in [172, 1811], applying
rcToUs and then usToRc recovers v within 2 units (the double truncation
in the two binary32 conversions loses up to 2 protocol units, so the
claimed tolerance of 1 fails, but tolerance 2 holds). -/
theorem c1_roundTrip_within_two (v : ℕ) (h1 : 172 ≤ v) (h2 : v ≤ 1811) :
    ((usToRc (rcToUs v) : ℤ) - (v : ℤ)).natAbs ≤ 2 := by
  have hall := roundTripAll2_eq_true
  unfold roundTripAll2 at hall
  rw [List.all_eq_true] at hall
  have hmem : v - 172 ∈ List.range 1640 := List.mem_range.mpr (by omega)
  have h := hall _ hmem
  have hv : 172 + (v - 172) = v := by omega
  rw [hv] at h
  unfold roundTripWithin at h
  exact of_decide_eq_true h

set_option maxRecDepth 100000 in
/-- Witness for c1_roundTrip_within_two at the protocol midpoint 992. -/
theorem c1_roundTrip_within_two_witness :
    ((usToRc (rcToUs 992) : ℤ) - (992 : ℤ)).natAbs ≤ 2 :=
  c1_roundTrip_within_two 992 (by decide) (by decide)

/-- C2: the flight-mode scan does not read the stored channel values.
With the single table entry (channel 1, range [900, 1100]) and a
snapshot whose stored channel 1 equals 992 (inside the range), the
outcome of the scan as coded is a function of the out-of-bounds heap
contents: heap contents 0 produce no callback while heap contents 992
select entry 0 — whereas the scan the spec describes always selects
entry 0 from the stored values. -/
theorem c2_flightmode_scan_reads_oob_memory :
    handleFlightMode (fun _ => 0)
        [{ channel := 1, min := 900, max := 1100 }] = none ∧
      handleFlightMode (fun _ => 992)
        [{ channel := 1, min := 900, max := 1100 }] = some 0 ∧
      handleFlightModeSpec
        { valid := true, failsafe := false,
          value := [0, 992, 0, 0, 0, 0, 0, 0, 0, 0, 0, 0, 0, 0, 0, 0] }
        [{ channel := 1, min := 900, max := 1100 }] = some 0 := by
  decide

/-- C3: the armed flag forwarded by telemetryWriteFlightMode is true
exactly when the identifier is the disarmed mode — the opposite of the
claimed logical complement: at FLIGHT_MODE_DISARMED it forwards true
(claim requires false), at any other mode such as FLIGHT_MODE_ANGLE it
forwards false (claim requires true). -/
theorem c3_armed_flag_inverted :
    (telemetryWriteFlightMode FLIGHT_MODE_DISARMED).2 = true ∧
      (telemetryWriteFlightMode FLIGHT_MODE_ANGLE).2 = false := by
  decide

/-- C4: end() twice is not safe once the engines exist.  end() deletes
the engines but leaves the pointers non-null, so a second end() tears
down and deletes the already-freed engines (doubleFree); only for
engines that were never constructed (null pointers, as at construction)
is the teardown a no-op as claimed. -/
theorem c4_second_end_double_frees :
    (endOp (endOp (beginEngines initialLifecycle))).doubleFree = true ∧
      (endOp (endOp initialLifecycle)).doubleFree = false := by
  decide

/-- C5 counterexample: a call of processFrames in which the decode
engine completes a frame (frames = 1, with RC reporting enabled and the
callback registered) still leaves the snapshot's valid flag false — the
claim that valid becomes true once the first frame has been decoded and
processed fails, because no statement of the source ever sets it. -/
theorem c5_valid_stays_false_after_frame :
    (processFrames (fun st _ => (st + 1, true)) (fun _ => false)
        (fun _ => List.replicate 16 992) true true true true 0 rcChannelsInit
        [1]).frames = 1 ∧
      (processFrames (fun st _ => (st + 1, true)) (fun _ => false)
        (fun _ => List.replicate 16 992) true true true true 0 rcChannelsInit
        [1]).rcChannels.valid = false := by
  decide

/-- C5 (amended): the snapshot's valid flag is false at construction
and the controller never mutates it afterwards: processFrames (the only
operation that rewrites the snapshot) always leaves valid exactly as it
found it — in particular it is never reset to false, but it also never
becomes true. -/
theorem c5_valid_never_mutated :
    rcChannelsInit.valid = false ∧
      ∀ (step : ℕ → ℕ → ℕ × Bool) (getFs : ℕ → Bool) (getRc : ℕ → List ℕ)
        (lsEnabled lsCb rcEnabled rcCb : Bool) (st : ℕ) (rc : rcChannels_t)
        (buf : List ℕ),
        (processFrames step getFs getRc lsEnabled lsCb rcEnabled rcCb st rc
            buf).rcChannels.valid = rc.valid := by
  refine ⟨rfl, ?_⟩
  intro step getFs getRc lsEnabled lsCb rcEnabled rcCb st rc buf
  unfold processFrames
  cases rcEnabled <;> simp

/-- C6: whenever RC channel reporting is enabled and an RC-channels
callback is registered, one call of processFrames invokes that callback
exactly once after the byte-drain loop — whatever the buffer and however
many frames completed — and the snapshot it publishes carries the
failsafe flag and channel array pulled from the decode engine's final
state. -/
theorem c6_rc_callback_exactly_once (step : ℕ → ℕ → ℕ × Bool) (getFs : ℕ → Bool)
    (getRc : ℕ → List ℕ) (lsEnabled lsCb rcCb : Bool) (st : ℕ)
    (rc : rcChannels_t) (buf : List ℕ) (hcb : rcCb = true) :
    (processFrames step getFs getRc lsEnabled lsCb true rcCb st rc buf).rcCalls = 1 ∧
      (processFrames step getFs getRc lsEnabled lsCb true rcCb st rc
          buf).rcChannels.failsafe =
        getFs (processFrames step getFs getRc lsEnabled lsCb true rcCb st rc
          buf).crsfState ∧
      (processFrames step getFs getRc lsEnabled lsCb true rcCb st rc
          buf).rcChannels.value =
        getRc (processFrames step getFs getRc lsEnabled lsCb true rcCb st rc
          buf).crsfState := by
  subst hcb
  unfold processFrames
  simp

/-- Witness for c6_rc_callback_exactly_once: a concrete call with two
buffered bytes and a decoder that never completes a frame still fires
the RC callback once. -/
theorem c6_rc_callback_exactly_once_witness :
    (processFrames (fun st _ => (st + 1, false)) (fun _ => true)
        (fun _ => List.replicate 16 5) true true true true 0 rcChannelsInit
        [9, 9]).rcCalls = 1 ∧
      (processFrames (fun st _ => (st + 1, false)) (fun _ => true)
        (fun _ => List.replicate 16 5) true true true true 0 rcChannelsInit
        [9, 9]).rcChannels.failsafe =
        (fun _ => true)
          ((processFrames (fun st _ => (st + 1, false)) (fun _ => true)
            (fun _ => List.replicate 16 5) true true true true 0 rcChannelsInit
            [9, 9]).crsfState) ∧
      (processFrames (fun st _ => (st + 1, false)) (fun _ => true)
        (fun _ => List.replicate 16 5) true true true true 0 rcChannelsInit
        [9, 9]).rcChannels.value =
        (fun _ => List.replicate 16 5)
          ((processFrames (fun st _ => (st + 1, false)) (fun _ => true)
            (fun _ => List.replicate 16 5) true true true true 0 rcChannelsInit
            [9, 9]).crsfState) :=
  c6_rc_callback_exactly_once (fun st _ => (st + 1, false)) (fun _ => true)
    (fun _ => List.replicate 16 5) true true true 0 rcChannelsInit [9, 9] rfl

/-- Helper for C7: in the byte-drain loop, when the decode engine first
completes a frame at buffer position i, exactly the bytes up to and
including position i are fed and every byte after position i is
discarded by flushRemainingFrames. -/
theorem processLoop_first_complete (step : ℕ → ℕ → ℕ × Bool) (lsEnabled lsCb : Bool) :
    ∀ (buf : List ℕ) (st i : ℕ), completesAt step st buf i →
      (∀ j, j < i → ¬ completesAt step st buf j) →
      (processLoop step lsEnabled lsCb st buf).2.1 = buf.take (i + 1) ∧
        (processLoop step lsEnabled lsCb st buf).2.2.1 = buf.drop (i + 1) := by
  intro buf
  induction buf with
  | nil =>
      intro st i hc _
      exact absurd hc.1 (by simp)
  | cons b rest ih =>
      intro st i hc hmin
      cases i with
      | zero =>
          have hdone : (step st b).2 = true := by
            simpa [completesAt, feedSeq] using hc.2
          unfold processLoop
          simp [hdone]
      | succ j =>
          have hnot0 : ¬ completesAt step st (b :: rest) 0 :=
            hmin 0 (Nat.succ_pos j)
          have hdone : (step st b).2 = false := by
            cases h : (step st b).2 with
            | false => rfl
            | true => exact absurd ⟨by simp, by simp [feedSeq, h]⟩ hnot0
          have hc' : completesAt step (step st b).1 rest j := by
            obtain ⟨hlt, he⟩ := hc
            refine ⟨by simpa using hlt, ?_⟩
            simpa [feedSeq, List.take_succ_cons, List.getD_cons_succ] using he
          have hmin' : ∀ k, k < j → ¬ completesAt step (step st b).1 rest k := by
            intro k hk hck
            refine hmin (k + 1) (by omega) ⟨by simpa using hck.1, ?_⟩
            simpa [feedSeq, List.take_succ_cons, List.getD_cons_succ] using hck.2
          have hres := ih (step st b).1 j hc' hmin'
          unfold processLoop
          simp only [hdone, if_neg Bool.false_ne_true, List.take_succ_cons,
            List.drop_succ_cons]
          exact ⟨by rw [hres.1], by rw [hres.2]⟩

/-- C7: whenever the decode engine reports its first completed frame at
position i of the bytes buffered at the call, processFrames has fed the
decoder exactly the bytes up to and including position i and discards
every byte still buffered at that instant (the rest of the buffer); no
byte past the drain point is consumed. -/
theorem c7_frame_completion_discards_backlog (step : ℕ → ℕ → ℕ × Bool)
    (getFs : ℕ → Bool) (getRc : ℕ → List ℕ) (lsEnabled lsCb rcEnabled rcCb : Bool)
    (st : ℕ) (rc : rcChannels_t) (buf : List ℕ) (i : ℕ)
    (hc : completesAt step st buf i)
    (hmin : ∀ j, j < i → ¬ completesAt step st buf j) :
    (processFrames step getFs getRc lsEnabled lsCb rcEnabled rcCb st rc
        buf).fed = buf.take (i + 1) ∧
      (processFrames step getFs getRc lsEnabled lsCb rcEnabled rcCb st rc
        buf).discarded = buf.drop (i + 1) := by
  have h := processLoop_first_complete step lsEnabled lsCb buf st i hc hmin
  unfold processFrames
  cases rcEnabled <;> simpa using h

/-- Witness for c7_frame_completion_discards_backlog: a decoder that
completes a frame exactly on byte value 7 first completes at position 1
of the buffer [3, 7, 9, 11]; the call feeds [3, 7] and discards
[9, 11]. -/
theorem c7_frame_completion_discards_backlog_witness :
    (processFrames (fun st b => (st + b, b == 7)) (fun _ => false)
        (fun _ => List.replicate 16 0) true true true true 0 rcChannelsInit
        [3, 7, 9, 11]).fed = [3, 7, 9, 11].take (1 + 1) ∧
      (processFrames (fun st b => (st + b, b == 7)) (fun _ => false)
        (fun _ => List.replicate 16 0) true true true true 0 rcChannelsInit
        [3, 7, 9, 11]).discarded = [3, 7, 9, 11].drop (1 + 1) :=
  c7_frame_completion_discards_backlog (fun st b => (st + b, b == 7))
    (fun _ => false) (fun _ => List.replicate 16 0) true true true true 0
    rcChannelsInit [3, 7, 9, 11] 1 (by decide) (by decide)

/-- Helper: reading a just-set position of a list with a default gives
the stored element. -/
theorem getD_set_self {α : Type} (l : List α) (i : ℕ) (e d : α)
    (h : i < l.length) : (l.set i e).getD i d = e := by
  rw [List.getD_eq_getElem _ _ (by simpa using h)]
  simp

/-- Helper: reading any other position of a just-set list with a
default is unchanged. -/
theorem getD_set_other {α : Type} (l : List α) (i j : ℕ) (e d : α)
    (h : j ≠ i) : (l.set i e).getD j d = l.getD j d := by
  by_cases hj : j < l.length
  · rw [List.getD_eq_getElem _ _ (by simpa using hj),
      List.getD_eq_getElem _ _ hj]
    exact List.getElem_set_ne (Ne.symm h) _
  · rw [List.getD_eq_default _ _ (by simpa using Nat.le_of_not_lt hj),
      List.getD_eq_default _ _ (Nat.le_of_not_lt hj)]

/-- C8: setFlightMode with an id below the table length (the configured
mode count) and a channel at most 15 stores the entry at index id and
returns true, leaving every other index unchanged (so a later valid call
with the same id overwrites cleanly); any other call returns false and
leaves the table completely unchanged. -/
theorem c8_setFlightMode_validates (modes : List flightMode_t)
    (id ch mn mx : ℕ) :
    (id < modes.length ∧ ch ≤ 15 →
      (setFlightMode modes id ch mn mx).2 = true ∧
        (setFlightMode modes id ch mn mx).1 =
          modes.set id { channel := ch, min := mn, max := mx } ∧
        (setFlightMode modes id ch mn mx).1.getD id
            { channel := 0, min := 0, max := 0 } =
          { channel := ch, min := mn, max := mx } ∧
        ∀ j, j ≠ id →
          (setFlightMode modes id ch mn mx).1.getD j
              { channel := 0, min := 0, max := 0 } =
            modes.getD j { channel := 0, min := 0, max := 0 }) ∧
      (¬ (id < modes.length ∧ ch ≤ 15) →
        (setFlightMode modes id ch mn mx).2 = false ∧
          (setFlightMode modes id ch mn mx).1 = modes) := by
  constructor
  · intro hvalid
    have hs : setFlightMode modes id ch mn mx =
        (modes.set id { channel := ch, min := mn, max := mx }, true) := by
      unfold setFlightMode
      rw [if_pos hvalid]
    refine ⟨by rw [hs], by rw [hs], ?_, ?_⟩
    · rw [hs]
      exact getD_set_self _ _ _ _ hvalid.1
    · intro j hj
      rw [hs]
      exact getD_set_other _ _ _ _ _ hj
  · intro hinvalid
    have hs : setFlightMode modes id ch mn mx = (modes, false) := by
      unfold setFlightMode
      rw [if_neg hinvalid]
    exact ⟨by rw [hs], by rw [hs]⟩

/-- Witness for c8_setFlightMode_validates: in a two-entry table, the
valid call with id 1, channel 5, range [100, 200] reports success,
stores the entry at index 1 and leaves index 0 unchanged; the invalid
calls (id 2 out of range, channel 16 out of range) report failure and
leave the table unchanged. -/
theorem c8_setFlightMode_validates_witness :
    (setFlightMode [{ channel := 0, min := 0, max := 0 },
        { channel := 2, min := 10, max := 20 }] 1 5 100 200).2 = true ∧
      (setFlightMode [{ channel := 0, min := 0, max := 0 },
          { channel := 2, min := 10, max := 20 }] 1 5 100 200).1.getD 1
          { channel := 0, min := 0, max := 0 } =
        { channel := 5, min := 100, max := 200 } ∧
      (setFlightMode [{ channel := 0, min := 0, max := 0 },
          { channel := 2, min := 10, max := 20 }] 1 5 100 200).1.getD 0
          { channel := 0, min := 0, max := 0 } =
        { channel := 0, min := 0, max := 0 } ∧
      (setFlightMode [{ channel := 0, min := 0, max := 0 },
          { channel := 2, min := 10, max := 20 }] 2 5 100 200).2 = false ∧
      (setFlightMode [{ channel := 0, min := 0, max := 0 },
          { channel := 2, min := 10, max := 20 }] 1 16 100 200).1 =
        [{ channel := 0, min := 0, max := 0 },
          { channel := 2, min := 10, max := 20 }] :=
  ⟨((c8_setFlightMode_validates [{ channel := 0, min := 0, max := 0 },
      { channel := 2, min := 10, max := 20 }] 1 5 100 200).1 (by decide)).1,
    ((c8_setFlightMode_validates [{ channel := 0, min := 0, max := 0 },
      { channel := 2, min := 10, max := 20 }] 1 5 100 200).1 (by decide)).2.2.1,
    ((c8_setFlightMode_validates [{ channel := 0, min := 0, max := 0 },
      { channel := 2, min := 10, max := 20 }] 1 5 100 200).1
        (by decide)).2.2.2 0 (by decide),
    ((c8_setFlightMode_validates [{ channel := 0, min := 0, max := 0 },
      { channel := 2, min := 10, max := 20 }] 2 5 100 200).2 (by decide)).1,
    ((c8_setFlightMode_validates [{ channel := 0, min := 0, max := 0 },
      { channel := 2, min := 10, max := 20 }] 1 16 100 200).2 (by decide)).2⟩

/-- C9: readRcChannel returns 0 for every channel index above 15, for
raw and converted reads alike, and for an index at most 15 with raw
reading it returns the stored protocol-native value unmodified.  The
source method contains no assignment, so the embedding is a pure
function of the snapshot and the channel state is left unmutated by
construction. -/
theorem c9_readRcChannel_bounds (rc : rcChannels_t) (ch : ℕ) (raw : Bool) :
    (15 < ch → readRcChannel rc ch raw = 0) ∧
      (ch ≤ 15 → readRcChannel rc ch true = rc.value.getD ch 0) := by
  constructor
  · intro h
    unfold readRcChannel
    rw [if_neg (by omega)]
  · intro h
    unfold readRcChannel
    rw [if_pos h]
    rfl

/-- Witness for c9_readRcChannel_bounds: in the construction-time state,
channel index 16 reads 0 under both raw flags, and channel index 3 with
raw reads the stored value. -/
theorem c9_readRcChannel_bounds_witness :
    readRcChannel rcChannelsInit 16 true = 0 ∧
      readRcChannel rcChannelsInit 16 false = 0 ∧
      readRcChannel rcChannelsInit 3 true = rcChannelsInit.value.getD 3 0 :=
  ⟨(c9_readRcChannel_bounds rcChannelsInit 16 true).1 (by decide),
    (c9_readRcChannel_bounds rcChannelsInit 16 false).1 (by decide),
    (c9_readRcChannel_bounds rcChannelsInit 3 true).2 (by decide)⟩

/-- C10: immediately after construction every stored channel value is
0 and the valid and failsafe flags are false; hence for each channel
index up to 15 the raw read returns 0 (below the protocol minimum 172)
and the converted read returns 881 microseconds (below the documented
988 microsecond minimum). -/
theorem c10_construction_state (ch : ℕ) (h : ch ≤ 15) :
    rcChannelsInit.valid = false ∧ rcChannelsInit.failsafe = false ∧
      rcChannelsInit.value.getD ch 0 = 0 ∧
      readRcChannel rcChannelsInit ch true = 0 ∧ (0 : ℕ) < 172 ∧
      readRcChannel rcChannelsInit ch false = 881 ∧ (881 : ℕ) < 988 := by
  interval_cases ch <;> exact ⟨rfl, rfl, by decide, by decide, by decide,
    by decide, by decide⟩

/-- Witness for c10_construction_state at channel index 0. -/
theorem c10_construction_state_witness :
    rcChannelsInit.valid = false ∧ rcChannelsInit.failsafe = false ∧
      rcChannelsInit.value.getD 0 0 = 0 ∧
      readRcChannel rcChannelsInit 0 true = 0 ∧ (0 : ℕ) < 172 ∧
      readRcChannel rcChannelsInit 0 false = 881 ∧ (881 : ℕ) < 988 :=
  c10_construction_state 0 (by decide)

end SerialReceiver
